import Mathlib

/-!
Shallow embedding of the "Rashed" dashboard server, checked against its
specification claims.  The TypeScript sources embedded here are
`src/server/routes.ts`, `src/server/storage.ts`, `src/server/openai.ts`,
the shared table schema, and the dashboard page (src/unnamed/part_002).
Pure computations are translated directly; the database connection, the
outbound OpenAI HTTP call, the file system, `JSON.parse` and the clock are
modelled as explicit oracle inputs so that every handler is a total
executable function.
-/

namespace Rashed

/-- JSON values.  JavaScript numbers are modelled as rationals (every value
the server actually produces is an integer or a decimal literal). -/
inductive Json where
  | null : Json
  | bool (b : Bool) : Json
  | num (q : Rat) : Json
  | str (s : String) : Json
  | arr (xs : List Json) : Json
  | obj (fields : List (String × Json)) : Json

/-- An HTTP response as the route handlers produce it: a status code and a
JSON body (`res.status(n).json(body)` / `res.json(body)`, which defaults the
status to 200). -/
structure Response where
  status : Nat
  body : Json

/-- JS falsiness of an optional string (`!x`): `undefined` and `""` are
falsy. -/
def jsFalsyStr : Option String → Bool
  | none => true
  | some s => s == ""

/-- JS `a || b` for optional strings. -/
def jsOrStr (a b : Option String) : Option String :=
  if jsFalsyStr a then b else a

/-- JS `a || d` for an optional string against a string default. -/
def jsOrStrD (a : Option String) (d : String) : String :=
  match a with
  | none => d
  | some s => if s == "" then d else s

/-- JS truthiness of an optional number (`if (x)`): `undefined` and `0` are
falsy.  This is the test `getProjects` applies to its `userId` argument. -/
def jsTruthyNum : Option Int → Bool
  | none => false
  | some n => !(n == 0)

/-- Lookup of a key in a JSON object field list. -/
def jsonLookup : List (String × Json) → String → Option Json
  | [], _ => none
  | (k, v) :: rest, key => if k == key then some v else jsonLookup rest key

/-- `j[k]` on a JSON object, `undefined` otherwise. -/
def jsonGet : Json → String → Option Json
  | .obj fs, k => jsonLookup fs k
  | _, _ => none

/-- String read of a JSON object field, with the JS template-literal
rendering `"undefined"` for a missing or non-string field. -/
def jsonGetStr (j : Json) (k : String) : String :=
  match jsonGet j k with
  | some (.str s) => s
  | _ => "undefined"

/-- `\x7b...j, k: v\x7d`: spread-set of one field on a JSON object. -/
def jsonSetField : Json → String → Json → Json
  | .obj fs, k, v => .obj ((fs.filter (fun p => !(p.1 == k))) ++ [(k, v)])
  | j, _, _ => j

/-- Drizzle `update().set(patch)`: the patch object's columns overwrite the
row's, other columns are kept. -/
def jsonMergeObj : Json → Json → Json
  | .obj fs, .obj ps => .obj ((fs.filter (fun p => !(ps.any (fun q => q.1 == p.1)))) ++ ps)
  | j, _ => j

/-- Chat message role as stored in the session
(`role: "user" | "assistant"` in the SessionData declaration). -/
inductive Role where
  | user : Role
  | assistant : Role
deriving DecidableEq, Repr

def roleToString : Role → String
  | .user => "user"
  | .assistant => "assistant"

/-- A session chat message (the SessionData `messages` element type in
routes.ts). -/
structure Message where
  id : String
  role : Role
  content : String
  timestamp : String
deriving DecidableEq, Repr

def messageToJson (m : Message) : Json :=
  .obj [("id", .str m.id), ("role", .str (roleToString m.role)),
        ("content", .str m.content), ("timestamp", .str m.timestamp)]

/-- A role-tagged message as sent to the completion API. -/
structure ChatMsg where
  role : String
  content : String
deriving DecidableEq, Repr

/-- The mapping routes.ts applies to each session message before forwarding:
`role: msg.role === "user" ? "user" : "assistant", content: msg.content`. -/
def chatOfMessage (m : Message) : ChatMsg :=
  ⟨if m.role = Role.user then "user" else "assistant", m.content⟩

/-! ## The OpenAI proxy module (src/server/openai.ts) -/

def DEFAULT_MODEL : String := "gpt-4o"

/-- The two environment variables read when constructing the client:
`process.env.OPENAI_API_KEY || process.env.OPENAI_API_KEY_ENV_VAR`. -/
structure OpenAIEnv where
  OPENAI_API_KEY : Option String
  OPENAI_API_KEY_ENV_VAR : Option String

/-- The `apiKey` the OpenAI client instance holds. -/
def clientApiKey (env : OpenAIEnv) : Option String :=
  jsOrStr env.OPENAI_API_KEY env.OPENAI_API_KEY_ENV_VAR

/-- `isConfigured()`: `!!openai.apiKey`. -/
def isConfigured (env : OpenAIEnv) : Bool :=
  !(jsFalsyStr (clientApiKey env))

/-- The options object accepted by `createChatCompletion`. -/
structure ChatOptions where
  messages : List ChatMsg
  model : Option String
  temperature : Option Rat
  max_tokens : Option Nat
  response_format : Option String

/-- The outbound request `createChatCompletion` sends to
`openai.chat.completions.create`. -/
structure ChatRequest where
  model : String
  messages : List ChatMsg
  temperature : Option Rat
  max_tokens : Option Nat
  response_format : Option String
deriving DecidableEq, Repr

/-- The part of the completion response the server reads:
`response.choices[0].message.content` (a string or `null`). -/
structure Completion where
  content : Option String
deriving DecidableEq, Repr

/-- Rendering of a completion response for `res.json(result)`; only the
fields the server population is modelled. -/
def completionToJson (c : Completion) : Json :=
  .obj [("choices", .arr [.obj [("message",
    .obj [("role", .str "assistant"),
          ("content", match c.content with | some s => .str s | none => .null)])]])]

/-- Oracle for the external completion API: the outcome of the one HTTP
call, as a function of the request sent. -/
def ApiOracle : Type := ChatRequest → Except String Completion

/-- `createChatCompletion` (openai.ts).  Returns the outcome together with
the list of external API calls actually made (at most one), so that claims
about "no call is made" are statable.  An unconfigured key throws before
any call; an API failure is re-thrown with the `OpenAI API error: ` prefix. -/
def createChatCompletion (env : OpenAIEnv) (options : ChatOptions)
    (api : ApiOracle) : Except String Completion × List ChatRequest :=
  if !(isConfigured env) then
    (.error "OpenAI API key not configured", [])
  else
    let req : ChatRequest :=
      { model := jsOrStrD options.model DEFAULT_MODEL
        messages := options.messages
        temperature := options.temperature
        max_tokens := options.max_tokens
        response_format := options.response_format }
    match api req with
    | .ok r => (.ok r, [req])
    | .error e => (.error ("OpenAI API error: " ++ e), [req])

/-- System prompt of `generateCode`.  The prompt strings are opaque payload
data for every claim; the embedded text keeps the leading sentences of the
source template (whose remainder only formats the answer). -/
def generateCodeSystemPrompt (additionalInstructions : Option String) : String :=
  "You are an expert programmer. Write clean, efficient, and well-documented code. "
    ++ jsOrStrD additionalInstructions ""

/-- `generateCode` (openai.ts): wraps `createChatCompletion`, returns
`response.choices[0].message.content`, and re-throws failures with the
`Failed to generate code: ` prefix. -/
def generateCode (prompt : String) (language : Option String)
    (additionalInstructions : Option String) (env : OpenAIEnv) (api : ApiOracle) :
    Except String (Option String) × List ChatRequest :=
  let sys := generateCodeSystemPrompt additionalInstructions
  let user := "Generate " ++ (match language with | some l => l ++ " " | none => "")
    ++ "code for the following:\n\n" ++ prompt
  let (res, calls) := createChatCompletion env
    { messages := [⟨"system", sys⟩, ⟨"user", user⟩],
      model := none, temperature := some (0.2 : Rat),
      max_tokens := none, response_format := none } api
  match res with
  | .ok r => (.ok r.content, calls)
  | .error e => (.error ("Failed to generate code: " ++ e), calls)

/-- Oracle for `JSON.parse` applied to model output. -/
def ParseOracle : Type := String → Except String Json

/-- `analyzeCode` (openai.ts): JSON-mode completion, parsed with
`JSON.parse`; all failures are re-thrown with the
`Failed to analyze code: ` prefix.  A `null` content is parsed to `null`
(JS coerces the argument to the string "null"). -/
def analyzeCode (code language : String) (env : OpenAIEnv) (api : ApiOracle)
    (parse : ParseOracle) : Except String Json × List ChatRequest :=
  let sys := "You are an expert code reviewer. Analyze the provided " ++ language
    ++ " code and suggest improvements for efficiency, readability, and best practices."
  let (res, calls) := createChatCompletion env
    { messages := [⟨"system", sys⟩, ⟨"user", "Analyze this " ++ language ++ " code:\n\n" ++ code⟩],
      model := none, temperature := some (0.1 : Rat),
      max_tokens := none, response_format := some "json_object" } api
  match res with
  | .ok r =>
    match r.content with
    | some s =>
      (match parse s with
       | .ok j => (.ok j, calls)
       | .error e => (.error ("Failed to analyze code: " ++ e), calls))
    | none => (.ok .null, calls)
  | .error e => (.error ("Failed to analyze code: " ++ e), calls)

/-- `generateDocumentation` (openai.ts); failures re-thrown with the
`Failed to generate documentation: ` prefix. -/
def generateDocumentation (code language : String) (env : OpenAIEnv)
    (api : ApiOracle) : Except String (Option String) × List ChatRequest :=
  let sys := "You are an expert technical writer. Generate comprehensive documentation for the provided "
    ++ language ++ " code."
  let (res, calls) := createChatCompletion env
    { messages := [⟨"system", sys⟩,
                   ⟨"user", "Generate documentation for this " ++ language ++ " code:\n\n" ++ code⟩],
      model := none, temperature := some (0.3 : Rat),
      max_tokens := none, response_format := none } api
  match res with
  | .ok r => (.ok r.content, calls)
  | .error e => (.error ("Failed to generate documentation: " ++ e), calls)

/-- `naturalLanguageToRequirements` (openai.ts); failures re-thrown with the
`Failed to generate requirements: ` prefix. -/
def naturalLanguageToRequirements (description : String) (env : OpenAIEnv)
    (api : ApiOracle) (parse : ParseOracle) : Except String Json × List ChatRequest :=
  let sys := "You are an expert product manager and developer. Transform the provided natural language description into a structured set of technical requirements and specifications."
  let (res, calls) := createChatCompletion env
    { messages := [⟨"system", sys⟩,
                   ⟨"user", "Transform this project description to technical requirements:\n\n" ++ description⟩],
      model := none, temperature := some (0.2 : Rat),
      max_tokens := none, response_format := some "json_object" } api
  match res with
  | .ok r =>
    match r.content with
    | some s =>
      (match parse s with
       | .ok j => (.ok j, calls)
       | .error e => (.error ("Failed to generate requirements: " ++ e), calls))
    | none => (.ok .null, calls)
  | .error e => (.error ("Failed to generate requirements: " ++ e), calls)

/-! ## Database rows (shared schema) and the storage layer
(src/server/storage.ts)

Tables with columns a claim inspects (`projects`, `approvals`) are given
typed rows; the remaining tables hold their rows as opaque JSON objects
(`deployments`, `integrations`, `activities`, `logs`) or as an id paired
with the JSON row (`environments`, whose update needs the id column). -/

/-- A `projects` row. -/
structure Project where
  id : Int
  name : String
  ty : String
  description : Option String
  techStack : Option (List String)
  createdAt : Option String
  userId : Option Int
deriving DecidableEq, Repr

def optStrJson : Option String → Json
  | none => .null
  | some s => .str s

def projectToJson (p : Project) : Json :=
  .obj [("id", .num (p.id : Rat)), ("name", .str p.name), ("type", .str p.ty),
        ("description", optStrJson p.description),
        ("techStack", match p.techStack with
          | none => .null
          | some l => .arr (l.map Json.str)),
        ("createdAt", optStrJson p.createdAt),
        ("userId", match p.userId with | none => .null | some u => .num (u : Rat))]

/-- An `approvals` row. -/
structure Approval where
  id : Int
  title : String
  description : String
  ty : String
  priority : String
  status : String
  createdAt : Option String
deriving DecidableEq, Repr

def approvalToJson (a : Approval) : Json :=
  .obj [("id", .num (a.id : Rat)), ("title", .str a.title),
        ("description", .str a.description), ("type", .str a.ty),
        ("priority", .str a.priority), ("status", .str a.status),
        ("createdAt", optStrJson a.createdAt)]

/-- An `environments` row: the id column paired with the full JSON row. -/
structure EnvRow where
  id : Int
  row : Json

/-- The database state: one list per table (the `users` table is only used
by the authentication module, which lives outside src/, and is omitted).
`nextProjectId` models the `serial` id assignment for inserts. -/
structure Db where
  projects : List Project
  nextProjectId : Int
  deployments : List Json
  environments : List EnvRow
  integrations : List Json
  activities : List Json
  approvals : List Approval
  logs : List Json

/-- `DatabaseStorage.getProjects(userId?)`: the per-user filter is applied
only when `userId` is truthy (`if (userId)` - so an absent id or id `0`
returns the whole table).  `eq(projects.userId, userId)` excludes NULL
`userId` rows, as does `p.userId == some u`. -/
def getProjects (userId : Option Int) (table : List Project) : List Project :=
  if jsTruthyNum userId then table.filter (fun p => p.userId == userId)
  else table

/-- `DatabaseStorage.getProject(id)`. -/
def getProject (id : Int) (table : List Project) : Option Project :=
  table.find? (fun p => p.id == id)

/-- The insertable project fields taken from the request body. -/
structure ProjectInsert where
  name : String
  ty : String
  description : Option String
  techStack : Option (List String)

/-- `DatabaseStorage.createProject`: insert with a fresh serial id and
`created_at defaultNow()`. -/
def createProject (ins : ProjectInsert) (userId : Option Int) (nowIso : String)
    (db : Db) : Project × Db :=
  let p : Project :=
    { id := db.nextProjectId, name := ins.name, ty := ins.ty,
      description := ins.description, techStack := ins.techStack,
      createdAt := some nowIso, userId := userId }
  (p, { db with projects := db.projects ++ [p], nextProjectId := db.nextProjectId + 1 })

/-- Insertion sort step for a descending order by a string key. -/
def insertByDesc (key : α → String) (x : α) : List α → List α
  | [] => [x]
  | y :: ys => if key y ≤ key x then x :: y :: ys else y :: insertByDesc key x ys

/-- `ORDER BY key DESC`, modelled as an insertion sort on the key. -/
def sortByDesc (key : α → String) : List α → List α
  | [] => []
  | x :: xs => insertByDesc key x (sortByDesc key xs)

/-- `DatabaseStorage.getRecentProjects(userId, limit)`: filter by user,
order by `createdAt` descending, limit.  SQL NULL ordering is abstracted by
keying NULL as the empty string. -/
def getRecentProjects (userId : Int) (limit : Nat) (table : List Project) : List Project :=
  ((sortByDesc (fun p => p.createdAt.getD "")
      (table.filter (fun p => p.userId == some userId))).take limit)

/-- `DatabaseStorage.createDeployment`: plain insert of the given row. -/
def createDeployment (row : Json) (db : Db) : Json × Db :=
  (row, { db with deployments := db.deployments ++ [row] })

/-- `DatabaseStorage.getEnvironment(id)`. -/
def getEnvironment (id : Int) (db : Db) : Option EnvRow :=
  db.environments.find? (fun r => r.id == id)

/-- `DatabaseStorage.updateEnvironment(id, data)`: `update().set(data)`
with `returning()`; an empty returned row set throws. -/
def updateEnvironment (id : Int) (patch : Json) (db : Db) :
    Except String (Json × Db) :=
  let rows := db.environments.map (fun r =>
    if r.id == id then { r with row := jsonMergeObj r.row patch } else r)
  match rows.filter (fun r => r.id == id) with
  | [] => .error "Environment not found"
  | r :: _ => .ok (r.row, { db with environments := rows })

/-- `DatabaseStorage.createIntegration`. -/
def createIntegration (row : Json) (db : Db) : Json × Db :=
  (row, { db with integrations := db.integrations ++ [row] })

/-- `DatabaseStorage.getActivities(limit)`: order by timestamp descending,
limit. -/
def getActivities (limit : Nat) (db : Db) : List Json :=
  (sortByDesc (fun j => jsonGetStr j "timestamp") db.activities).take limit

/-- `DatabaseStorage.createActivity`: insert the given object with a fresh
`timestamp`. -/
def createActivity (activity : Json) (nowIso : String) (db : Db) : Json × Db :=
  let row := jsonSetField activity "timestamp" (.str nowIso)
  (row, { db with activities := db.activities ++ [row] })

/-- JS string truthiness used by `getApprovals(status?)`. -/
def getApprovals (status : Option String) (table : List Approval) : List Approval :=
  match status with
  | some s => if s == "" then table else table.filter (fun a => a.status == s)
  | none => table

/-- `DatabaseStorage.getApprovalsCount(status)`: `count(*)` under the
status filter. -/
def getApprovalsCount (status : String) (table : List Approval) : Nat :=
  (table.filter (fun a => a.status == status)).length

/-- `DatabaseStorage.updateApprovalStatus(id, status)`:
`update(approvals).set(\x7bstatus\x7d).where(eq(approvals.id, id)).returning()`;
an empty returned row set throws `Approval not found`.  The status string is
written to the row exactly as given - no validation happens here. -/
def updateApprovalStatus (id : Int) (status : String) (table : List Approval) :
    Except String (Approval × List Approval) :=
  let rows := table.map (fun a => if a.id == id then { a with status := status } else a)
  match rows.filter (fun a => a.id == id) with
  | [] => .error "Approval not found"
  | a :: _ => .ok (a, rows)

/-- `DatabaseStorage.getLogs()`: order by timestamp descending. -/
def getLogs (db : Db) : List Json :=
  sortByDesc (fun j => jsonGetStr j "timestamp") db.logs

/-! ## File upload configuration (multer, routes.ts lines 57-102) -/

/-- The extension allow-list of the multer `fileFilter`. -/
def allowedTypes : List String :=
  [".js", ".jsx", ".ts", ".tsx", ".py", ".java", ".c", ".cpp", ".cs", ".php",
   ".go", ".rb", ".rs",
   ".json", ".csv", ".xml", ".yaml", ".yml",
   ".html", ".css", ".scss", ".sass", ".less",
   ".md", ".txt", ".pdf",
   ".jpg", ".jpeg", ".png", ".gif", ".svg"]

/-- Node `path.extname`: the substring of the basename from its last dot,
empty when there is no dot or the only dot leads the basename.  Implemented
character-wise so it evaluates inside the kernel. -/
def extname (p : String) : String :=
  let base := ((p.toList.reverse.takeWhile (fun c => !(c == '/'))).reverse)
  let afterLastDot := base.reverse.takeWhile (fun c => !(c == '.'))
  if afterLastDot.length = base.length then ""
  else
    let dotIdx := base.length - afterLastDot.length - 1
    if dotIdx = 0 then "" else String.mk (base.drop dotIdx)

/-- `ext.toLowerCase()`, character-wise. -/
def toLowerStr (s : String) : String := String.mk (s.toList.map Char.toLower)

/-- The 10 MB `fileSize` limit of the multer configuration. -/
def fileSizeLimit : Nat := 10 * 1024 * 1024

/-- An incoming multipart file before multer processes it. -/
structure RawFile where
  originalname : String
  size : Nat
  mimetype : String
deriving DecidableEq, Repr

/-- The stored filename: `Date.now() + '-' + round(random * 1e9) + '-' +
file.originalname`. -/
def storedFilename (now rand : Nat) (originalname : String) : String :=
  toString now ++ "-" ++ toString rand ++ "-" ++ originalname

/-- The `req.file` record the upload handlers see after multer stores the
file under the uploads directory. -/
structure StoredFile where
  filename : String
  originalname : String
  size : Nat
  path : String
  mimetype : String
deriving DecidableEq, Repr

/-- Multer processing of one file: the `fileFilter` extension check
(case-insensitive, against the allow-list), then the `fileSize` limit;
an accepted file is stored under a name prefixed by the timestamp and the
random draw. -/
def multerProcess (now rand : Nat) (f : RawFile) : Except String StoredFile :=
  if !(allowedTypes.contains (toLowerStr (extname f.originalname))) then
    .error "Only common file types are allowed"
  else if fileSizeLimit < f.size then
    .error "File too large"
  else
    let name := storedFilename now rand f.originalname
    .ok { filename := name, originalname := f.originalname, size := f.size,
          path := "uploads/" ++ name, mimetype := f.mimetype }

/-- `GET /api/files` recovers the original name from the stored pattern:
`filename.split('-').slice(2).join('-') || filename`. -/
def originalFromStored (filename : String) : String :=
  let joined := String.intercalate "-" ((filename.splitOn "-").drop 2)
  if joined == "" then filename else joined

/-! ## Requests, oracles, and the route handlers (src/server/routes.ts) -/

/-- One attempted outbound effect of a handler: a database operation (with
the payload it writes, `null` for reads), an AI-proxy call, or a file
system operation. -/
inductive Call where
  | db (op : String) (payload : Json)
  | ai (req : ChatRequest)
  | fs (op : String)

/-- The ambient world a request executes against: a possible database
connection failure (any storage call rejects with it), the OpenAI
environment and HTTP oracle, the `JSON.parse` oracle, the file system, and
the clock (`now`/`nowIso` for the first `Date.now()`/`toISOString()` pair
in a handler, `now2`/`nowIso2` for the second). -/
structure Oracles where
  dbErr : Option String
  env : OpenAIEnv
  api : ApiOracle
  parse : ParseOracle
  fsReaddir : Except String (List String)
  fsStat : String → Except String (Nat × String)
  fsRead : Except String String
  now : Nat
  now2 : Nat
  rand : Nat
  nowIso : String
  nowIso2 : String

/-- The data of an incoming request: the authenticated user, parsed route
and query parameters, the body fields each handler destructures, the
multipart file, and the cookie session. -/
structure RequestData where
  userId : Option Int
  username : String
  paramId : Int
  queryLimit : Option Int
  queryStatus : Option String
  content : Option String
  statusBody : String
  projectBody : ProjectInsert
  deployBody : Json
  integrationBody : Json
  envPatch : Json
  aiBody : Json
  prompt : Option String
  language : Option String
  code : Option String
  description : Option String
  rawFile : Option RawFile
  session : Option (List Message)

/-- A handler outcome: the response or an uncaught exception, the database
and session after the handler ran, and the outbound calls it attempted. -/
structure HandlerOut where
  res : Except String Response
  db : Db
  session : Option (List Message)
  calls : List Call

/-- Outcome of awaiting one storage call under the connection oracle. -/
def dbAttempt (o : Oracles) (v : α) : Except String α :=
  match o.dbErr with
  | some e => .error e
  | none => .ok v

/-- `GET /api/projects`: `storage.getProjects(req.user?.id)`. -/
def projectsIndexHandler (req : RequestData) (db : Db) (o : Oracles) : HandlerOut :=
  match dbAttempt o (getProjects req.userId db.projects) with
  | .error e => ⟨.error e, db, req.session, [.db "getProjects" .null]⟩
  | .ok projects =>
    ⟨.ok ⟨200, .arr (projects.map projectToJson)⟩, db, req.session, [.db "getProjects" .null]⟩

/-- `GET /api/projects/recent`: `storage.getRecentProjects(req.user!.id, 5)`
(the non-null assertion is modelled with default 0). -/
def projectsRecentHandler (req : RequestData) (db : Db) (o : Oracles) : HandlerOut :=
  match dbAttempt o (getRecentProjects (req.userId.getD 0) 5 db.projects) with
  | .error e => ⟨.error e, db, req.session, [.db "getRecentProjects" .null]⟩
  | .ok projects =>
    ⟨.ok ⟨200, .arr (projects.map projectToJson)⟩, db, req.session, [.db "getRecentProjects" .null]⟩

/-- `GET /api/projects/:id`. -/
def projectsShowHandler (req : RequestData) (db : Db) (o : Oracles) : HandlerOut :=
  match dbAttempt o (getProject req.paramId db.projects) with
  | .error e => ⟨.error e, db, req.session, [.db "getProject" .null]⟩
  | .ok none =>
    ⟨.ok ⟨404, .obj [("message", .str "Project not found")]⟩, db, req.session, [.db "getProject" .null]⟩
  | .ok (some p) => ⟨.ok ⟨200, projectToJson p⟩, db, req.session, [.db "getProject" .null]⟩

/-- `POST /api/projects`: create the project for the authenticated user,
record a `project_created` activity, answer 201. -/
def projectsCreateHandler (req : RequestData) (db : Db) (o : Oracles) : HandlerOut :=
  match o.dbErr with
  | some e => ⟨.error e, db, req.session, [.db "createProject" .null]⟩
  | none =>
    let (p, db1) := createProject req.projectBody req.userId o.nowIso db
    let actJson : Json := .obj
      [("type", .str "project_created"),
       ("description", .str ("Project \"" ++ p.name ++ "\" was created")),
       ("projectId", .num (p.id : Rat)),
       ("metadata", .obj [("projectType", .str p.ty)])]
    let (_, db2) := createActivity actJson o.nowIso db1
    ⟨.ok ⟨201, projectToJson p⟩, db2, req.session,
      [.db "createProject" .null, .db "createActivity" actJson]⟩

/-- `GET /api/deployments`. -/
def deploymentsIndexHandler (req : RequestData) (db : Db) (o : Oracles) : HandlerOut :=
  match dbAttempt o db.deployments with
  | .error e => ⟨.error e, db, req.session, [.db "getDeployments" .null]⟩
  | .ok rows => ⟨.ok ⟨200, .arr rows⟩, db, req.session, [.db "getDeployments" .null]⟩

/-- `POST /api/deployments`: insert the body with `deployedBy` set to the
authenticated username, record a `deployment_created` activity. -/
def deploymentsCreateHandler (req : RequestData) (db : Db) (o : Oracles) : HandlerOut :=
  match o.dbErr with
  | some e => ⟨.error e, db, req.session, [.db "createDeployment" .null]⟩
  | none =>
    let row := jsonSetField req.deployBody "deployedBy" (.str req.username)
    let (d, db1) := createDeployment row db
    let actJson : Json := .obj
      [("type", .str "deployment_created"),
       ("description", .str ("New deployment to " ++ jsonGetStr d "environment" ++ " environment")),
       ("projectId", (jsonGet d "projectId").getD .null),
       ("metadata", .obj [("status", (jsonGet d "status").getD .null)])]
    let (_, db2) := createActivity actJson o.nowIso db1
    ⟨.ok ⟨201, d⟩, db2, req.session,
      [.db "createDeployment" .null, .db "createActivity" actJson]⟩

/-- `GET /api/environments`. -/
def environmentsIndexHandler (req : RequestData) (db : Db) (o : Oracles) : HandlerOut :=
  match dbAttempt o (db.environments.map (fun r => r.row)) with
  | .error e => ⟨.error e, db, req.session, [.db "getEnvironments" .null]⟩
  | .ok rows => ⟨.ok ⟨200, .arr rows⟩, db, req.session, [.db "getEnvironments" .null]⟩

/-- `GET /api/environments/:id`. -/
def environmentsShowHandler (req : RequestData) (db : Db) (o : Oracles) : HandlerOut :=
  match dbAttempt o (getEnvironment req.paramId db) with
  | .error e => ⟨.error e, db, req.session, [.db "getEnvironment" .null]⟩
  | .ok none =>
    ⟨.ok ⟨404, .obj [("message", .str "Environment not found")]⟩, db, req.session,
      [.db "getEnvironment" .null]⟩
  | .ok (some r) => ⟨.ok ⟨200, r.row⟩, db, req.session, [.db "getEnvironment" .null]⟩

/-- `PATCH /api/environments/:id`: `storage.updateEnvironment` throws when
the row does not exist; the handler has no catch of its own. -/
def environmentsUpdateHandler (req : RequestData) (db : Db) (o : Oracles) : HandlerOut :=
  match o.dbErr with
  | some e => ⟨.error e, db, req.session, [.db "updateEnvironment" req.envPatch]⟩
  | none =>
    match updateEnvironment req.paramId req.envPatch db with
    | .error e => ⟨.error e, db, req.session, [.db "updateEnvironment" req.envPatch]⟩
    | .ok (row, db1) =>
      ⟨.ok ⟨200, row⟩, db1, req.session, [.db "updateEnvironment" req.envPatch]⟩

/-- `GET /api/integrations`. -/
def integrationsIndexHandler (req : RequestData) (db : Db) (o : Oracles) : HandlerOut :=
  match dbAttempt o db.integrations with
  | .error e => ⟨.error e, db, req.session, [.db "getIntegrations" .null]⟩
  | .ok rows => ⟨.ok ⟨200, .arr rows⟩, db, req.session, [.db "getIntegrations" .null]⟩

/-- `POST /api/integrations`: insert the body, record an
`integration_created` activity. -/
def integrationsCreateHandler (req : RequestData) (db : Db) (o : Oracles) : HandlerOut :=
  match o.dbErr with
  | some e => ⟨.error e, db, req.session, [.db "createIntegration" .null]⟩
  | none =>
    let (row, db1) := createIntegration req.integrationBody db
    let actJson : Json := .obj
      [("type", .str "integration_created"),
       ("description", .str ("New integration \"" ++ jsonGetStr row "name" ++ "\" was added")),
       ("metadata", .obj [("integrationType", (jsonGet row "type").getD .null)])]
    let (_, db2) := createActivity actJson o.nowIso db1
    ⟨.ok ⟨201, row⟩, db2, req.session,
      [.db "createIntegration" .null, .db "createActivity" actJson]⟩

/-- `GET /api/activities`: `req.query.limit ? parseInt(...) : 20` (the query
string is modelled already parsed). -/
def activitiesIndexHandler (req : RequestData) (db : Db) (o : Oracles) : HandlerOut :=
  let limit := req.queryLimit.getD 20
  match dbAttempt o (getActivities limit.toNat db) with
  | .error e => ⟨.error e, db, req.session, [.db "getActivities" .null]⟩
  | .ok rows => ⟨.ok ⟨200, .arr rows⟩, db, req.session, [.db "getActivities" .null]⟩

/-- `GET /api/approvals`. -/
def approvalsIndexHandler (req : RequestData) (db : Db) (o : Oracles) : HandlerOut :=
  match dbAttempt o (getApprovals req.queryStatus db.approvals) with
  | .error e => ⟨.error e, db, req.session, [.db "getApprovals" .null]⟩
  | .ok rows =>
    ⟨.ok ⟨200, .arr (rows.map approvalToJson)⟩, db, req.session, [.db "getApprovals" .null]⟩

/-- `GET /api/approvals/count`: `req.query.status as string || "pending"`. -/
def approvalsCountHandler (req : RequestData) (db : Db) (o : Oracles) : HandlerOut :=
  let status := jsOrStrD req.queryStatus "pending"
  match dbAttempt o (getApprovalsCount status db.approvals) with
  | .error e => ⟨.error e, db, req.session, [.db "getApprovalsCount" .null]⟩
  | .ok count =>
    ⟨.ok ⟨200, .obj [("count", .num (count : Rat))]⟩, db, req.session,
      [.db "getApprovalsCount" .null]⟩

/-- `PATCH /api/approvals/:id/status`: the body's `status` string is passed
to `storage.updateApprovalStatus` without any validation, then an
`approval_updated` activity is recorded. -/
def approvalsUpdateHandler (req : RequestData) (db : Db) (o : Oracles) : HandlerOut :=
  match o.dbErr with
  | some e =>
    ⟨.error e, db, req.session,
      [.db "updateApprovalStatus" (.obj [("status", .str req.statusBody)])]⟩
  | none =>
    match updateApprovalStatus req.paramId req.statusBody db.approvals with
    | .error e =>
      ⟨.error e, db, req.session,
        [.db "updateApprovalStatus" (.obj [("status", .str req.statusBody)])]⟩
    | .ok (a, rows) =>
      let db1 := { db with approvals := rows }
      let actJson : Json := .obj
        [("type", .str "approval_updated"),
         ("description", .str ("Approval \"" ++ a.title ++ "\" was " ++ req.statusBody)),
         ("metadata", .obj [("approvalType", .str a.ty), ("status", .str req.statusBody)])]
      let (_, db2) := createActivity actJson o.nowIso db1
      ⟨.ok ⟨200, approvalToJson a⟩, db2, req.session,
        [.db "updateApprovalStatus" (.obj [("status", .str req.statusBody)]),
         .db "createActivity" actJson]⟩

/-- `GET /api/logs`. -/
def logsIndexHandler (req : RequestData) (db : Db) (o : Oracles) : HandlerOut :=
  match dbAttempt o (getLogs db) with
  | .error e => ⟨.error e, db, req.session, [.db "getLogs" .null]⟩
  | .ok rows => ⟨.ok ⟨200, .arr rows⟩, db, req.session, [.db "getLogs" .null]⟩

/-- `GET /api/messages`: `req.session.messages || []`, no storage access. -/
def getMessagesHandler (req : RequestData) (db : Db) (o : Oracles) : HandlerOut :=
  ⟨.ok ⟨200, .arr ((req.session.getD []).map messageToJson)⟩, db, req.session, []⟩

/-- The system message prepended on every chat turn. -/
def chatSystemPrompt : String :=
  "You are Rashed, a private AI developer assistant that helps with coding, deployments, and integrations."

/-- The `chat_interaction` activity row written after a successful chat
turn; its metadata is only the message count. -/
def chatActivityJson (count : Rat) : Json :=
  .obj [("type", .str "chat_interaction"),
        ("description", .str "Chat interaction with AI assistant"),
        ("metadata", .obj [("messageCount", .num count)])]

/-- `POST /api/messages`: reject falsy content with 400; append the user
message to the session; forward one system message followed by the whole
session history to `createChatCompletion`; on success append and return the
assistant message with 201; the catch block around the completion call and
the activity insert answers 500 with `Error processing message` and leaves
the already-appended session messages in place. -/
def postMessagesHandler (req : RequestData) (db : Db) (o : Oracles) : HandlerOut :=
  if jsFalsyStr req.content then
    ⟨.ok ⟨400, .obj [("message", .str "Message content is required")]⟩, db, req.session, []⟩
  else
    let content := req.content.getD ""
    let history := req.session.getD []
    let userMessage : Message := ⟨toString o.now, .user, content, o.nowIso⟩
    let msgs1 := history ++ [userMessage]
    let fwdMessages := ChatMsg.mk "system" chatSystemPrompt :: msgs1.map chatOfMessage
    let (compRes, apiCalls) := createChatCompletion o.env
      { messages := fwdMessages, model := none, temperature := some (0.7 : Rat),
        max_tokens := some 1000, response_format := none } o.api
    match compRes with
    | .error e =>
      ⟨.ok ⟨500, .obj [("message", .str "Error processing message"), ("error", .str e)]⟩,
        db, some msgs1, apiCalls.map Call.ai⟩
    | .ok completion =>
      let assistantMessage : Message :=
        ⟨toString (o.now2 + 1), .assistant, completion.content.getD "", o.nowIso2⟩
      let msgs2 := msgs1 ++ [assistantMessage]
      let actJson := chatActivityJson (msgs2.length : Rat)
      match o.dbErr with
      | some e =>
        ⟨.ok ⟨500, .obj [("message", .str "Error processing message"), ("error", .str e)]⟩,
          db, some msgs2, apiCalls.map Call.ai ++ [.db "createActivity" actJson]⟩
      | none =>
        let (_, db1) := createActivity actJson o.nowIso2 db
        ⟨.ok ⟨201, messageToJson assistantMessage⟩, db1, some msgs2,
          apiCalls.map Call.ai ++ [.db "createActivity" actJson]⟩

/-- `POST /api/messages/reset`: clear the session message array. -/
def resetMessagesHandler (req : RequestData) (db : Db) (o : Oracles) : HandlerOut :=
  ⟨.ok ⟨200, .obj [("message", .str "Conversation reset successfully")]⟩, db, some [], []⟩

/-- One message of the zod schema of `POST /api/ai/chat`. -/
def parseChatMsgJson : Json → Option ChatMsg
  | .obj fs =>
    match jsonLookup fs "role", jsonLookup fs "content" with
    | some (.str r), some (.str c) =>
      if r == "system" || r == "user" || r == "assistant" then some ⟨r, c⟩ else none
    | _, _ => none
  | _ => none

def parseChatMsgs : List Json → Option (List ChatMsg)
  | [] => some []
  | j :: js =>
    match parseChatMsgJson j, parseChatMsgs js with
    | some m, some ms => some (m :: ms)
    | _, _ => none

/-- An optional numeric field of the zod schema: absent is fine, a
non-number is a validation failure. -/
def optNumField (fs : List (String × Json)) (k : String) : Option (Option Rat) :=
  match jsonLookup fs k with
  | none => some none
  | some (.num q) => some (some q)
  | some _ => none

/-- The zod validation of `POST /api/ai/chat`: a `messages` array of
role-tagged strings with optional `temperature` and `max_tokens`. -/
def validateAiChat (j : Json) : Option ChatOptions :=
  match j with
  | .obj fs =>
    match jsonLookup fs "messages" with
    | some (.arr ms) =>
      match parseChatMsgs ms, optNumField fs "temperature", optNumField fs "max_tokens" with
      | some msgs, some temp, some maxt =>
        some { messages := msgs, model := none, temperature := temp,
               max_tokens := maxt.map (fun q => q.floor.toNat), response_format := none }
      | _, _, _ => none
    | _ => none
  | _ => none

/-- `POST /api/ai/chat`: zod-validate, forward to `createChatCompletion`,
catch failures as 500 `Error from OpenAI API`.  The zod error format is
modelled as an opaque `null`. -/
def aiChatHandler (req : RequestData) (db : Db) (o : Oracles) : HandlerOut :=
  match validateAiChat req.aiBody with
  | none =>
    ⟨.ok ⟨400, .obj [("message", .str "Invalid request body"), ("errors", .null)]⟩,
      db, req.session, []⟩
  | some opts =>
    let (res, calls) := createChatCompletion o.env opts o.api
    match res with
    | .error e =>
      ⟨.ok ⟨500, .obj [("message", .str "Error from OpenAI API"), ("error", .str e)]⟩,
        db, req.session, calls.map Call.ai⟩
    | .ok c =>
      ⟨.ok ⟨200, completionToJson c⟩, db, req.session, calls.map Call.ai⟩

/-- `POST /api/ai/code`. -/
def aiCodeHandler (req : RequestData) (db : Db) (o : Oracles) : HandlerOut :=
  if jsFalsyStr req.prompt || jsFalsyStr req.language then
    ⟨.ok ⟨400, .obj [("message", .str "Prompt and language are required")]⟩, db, req.session, []⟩
  else
    let (res, calls) := generateCode (req.prompt.getD "") req.language none o.env o.api
    match res with
    | .error e =>
      ⟨.ok ⟨500, .obj [("message", .str "Error from OpenAI API"), ("error", .str e)]⟩,
        db, req.session, calls.map Call.ai⟩
    | .ok content =>
      ⟨.ok ⟨200, match content with | some s => .str s | none => .null⟩,
        db, req.session, calls.map Call.ai⟩

/-- `POST /api/ai/analyze`. -/
def aiAnalyzeHandler (req : RequestData) (db : Db) (o : Oracles) : HandlerOut :=
  if jsFalsyStr req.code || jsFalsyStr req.language then
    ⟨.ok ⟨400, .obj [("message", .str "Code and language are required")]⟩, db, req.session, []⟩
  else
    let (res, calls) := analyzeCode (req.code.getD "") (req.language.getD "") o.env o.api o.parse
    match res with
    | .error e =>
      ⟨.ok ⟨500, .obj [("message", .str "Error from OpenAI API"), ("error", .str e)]⟩,
        db, req.session, calls.map Call.ai⟩
    | .ok j => ⟨.ok ⟨200, j⟩, db, req.session, calls.map Call.ai⟩

/-- `POST /api/ai/document`. -/
def aiDocumentHandler (req : RequestData) (db : Db) (o : Oracles) : HandlerOut :=
  if jsFalsyStr req.code || jsFalsyStr req.language then
    ⟨.ok ⟨400, .obj [("message", .str "Code and language are required")]⟩, db, req.session, []⟩
  else
    let (res, calls) :=
      generateDocumentation (req.code.getD "") (req.language.getD "") o.env o.api
    match res with
    | .error e =>
      ⟨.ok ⟨500, .obj [("message", .str "Error from OpenAI API"), ("error", .str e)]⟩,
        db, req.session, calls.map Call.ai⟩
    | .ok content =>
      ⟨.ok ⟨200, .obj [("documentation", match content with | some s => .str s | none => .null)]⟩,
        db, req.session, calls.map Call.ai⟩

/-- `POST /api/ai/requirements`. -/
def aiRequirementsHandler (req : RequestData) (db : Db) (o : Oracles) : HandlerOut :=
  if jsFalsyStr req.description then
    ⟨.ok ⟨400, .obj [("message", .str "Project description is required")]⟩, db, req.session, []⟩
  else
    let (res, calls) :=
      naturalLanguageToRequirements (req.description.getD "") o.env o.api o.parse
    match res with
    | .error e =>
      ⟨.ok ⟨500, .obj [("message", .str "Error from OpenAI API"), ("error", .str e)]⟩,
        db, req.session, calls.map Call.ai⟩
    | .ok j => ⟨.ok ⟨200, j⟩, db, req.session, calls.map Call.ai⟩

/-- `POST /api/files/upload` (after the multer middleware): record a
`file_uploaded` activity and answer 201 with the file information. -/
def filesUploadHandler (file : Option StoredFile) (req : RequestData) (db : Db)
    (o : Oracles) : HandlerOut :=
  match file with
  | none =>
    ⟨.ok ⟨400, .obj [("message", .str "No file uploaded")]⟩, db, req.session, []⟩
  | some f =>
    let actJson : Json := .obj
      [("type", .str "file_uploaded"),
       ("description", .str ("File \"" ++ f.originalname ++ "\" was uploaded")),
       ("metadata", .obj [("filesize", .num (f.size : Rat)),
                          ("filetype", .str (extname f.originalname))])]
    match o.dbErr with
    | some e => ⟨.error e, db, req.session, [.db "createActivity" actJson]⟩
    | none =>
      let (_, db1) := createActivity actJson o.nowIso db
      let fileInfo : Json := .obj
        [("filename", .str f.filename), ("originalname", .str f.originalname),
         ("size", .num (f.size : Rat)), ("path", .str f.path),
         ("mimetype", .str f.mimetype), ("uploadedAt", .str o.nowIso)]
      ⟨.ok ⟨201, fileInfo⟩, db1, req.session, [.db "createActivity" actJson]⟩

/-- The per-file information built by `GET /api/files`, sequenced over the
`fs.stat` oracle (a `Promise.all` rejection surfaces the first failure). -/
def statInfos (o : Oracles) : List String → Except String (List Json)
  | [] => .ok []
  | n :: ns =>
    match o.fsStat ("uploads/" ++ n) with
    | .error e => .error e
    | .ok (size, mtime) =>
      match statInfos o ns with
      | .error e => .error e
      | .ok rest =>
        .ok (.obj [("filename", .str n),
                   ("originalname", .str (originalFromStored n)),
                   ("size", .num (size : Rat)),
                   ("path", .str ("uploads/" ++ n)),
                   ("uploadedAt", .str mtime)] :: rest)

/-- `GET /api/files`: list the uploads directory; the catch block answers
500 `Error retrieving files`. -/
def filesIndexHandler (req : RequestData) (db : Db) (o : Oracles) : HandlerOut :=
  match o.fsReaddir with
  | .error e =>
    ⟨.ok ⟨500, .obj [("message", .str "Error retrieving files"), ("error", .str e)]⟩,
      db, req.session, [.fs "readdir"]⟩
  | .ok names =>
    match statInfos o names with
    | .error e =>
      ⟨.ok ⟨500, .obj [("message", .str "Error retrieving files"), ("error", .str e)]⟩,
        db, req.session, [.fs "readdir"]⟩
    | .ok infos =>
      ⟨.ok ⟨200, .arr infos⟩, db, req.session, [.fs "readdir"]⟩

/-- The extension-to-language map of `POST /api/files/analyze`. -/
def languageMap : List (String × String) :=
  [("js", "javascript"), ("jsx", "javascript"), ("ts", "typescript"),
   ("tsx", "typescript"), ("py", "python"), ("java", "java"), ("c", "c"),
   ("cpp", "c++"), ("cs", "c#"), ("php", "php"), ("go", "go"), ("rb", "ruby"),
   ("rs", "rust"), ("html", "html"), ("css", "css"), ("json", "json"),
   ("md", "markdown")]

/-- `POST /api/files/analyze` (after the multer middleware): read the
stored file, analyze it, record a `file_analyzed` activity; the catch block
around all three answers 500 `Error analyzing file`. -/
def filesAnalyzeHandler (file : Option StoredFile) (req : RequestData) (db : Db)
    (o : Oracles) : HandlerOut :=
  match file with
  | none =>
    ⟨.ok ⟨400, .obj [("message", .str "No file uploaded")]⟩, db, req.session, []⟩
  | some f =>
    match o.fsRead with
    | .error e =>
      ⟨.ok ⟨500, .obj [("message", .str "Error analyzing file"), ("error", .str e)]⟩,
        db, req.session, [.fs "readFile"]⟩
    | .ok fileContent =>
      let fileExt := (extname f.originalname).drop 1
      let language := (languageMap.lookup fileExt).getD fileExt
      let (res, calls) := analyzeCode fileContent language o.env o.api o.parse
      match res with
      | .error e =>
        ⟨.ok ⟨500, .obj [("message", .str "Error analyzing file"), ("error", .str e)]⟩,
          db, req.session, .fs "readFile" :: calls.map Call.ai⟩
      | .ok analysis =>
        let actJson : Json := .obj
          [("type", .str "file_analyzed"),
           ("description", .str ("File \"" ++ f.originalname ++ "\" was analyzed")),
           ("metadata", .obj [("language", .str language),
                              ("filesize", .num (f.size : Rat))])]
        match o.dbErr with
        | some e =>
          ⟨.ok ⟨500, .obj [("message", .str "Error analyzing file"), ("error", .str e)]⟩,
            db, req.session, .fs "readFile" :: calls.map Call.ai ++ [.db "createActivity" actJson]⟩
        | none =>
          let (_, db1) := createActivity actJson o.nowIso db
          ⟨.ok ⟨200, .obj [("filename", .str f.originalname), ("language", .str language),
                           ("analysis", analysis)]⟩,
            db1, req.session, .fs "readFile" :: calls.map Call.ai ++ [.db "createActivity" actJson]⟩

/-! ## Middleware pipeline and the registered route table -/

/-- `ensureAuthenticated` (routes.ts): pass through when
`req.isAuthenticated()`, otherwise answer 401 Unauthorized. -/
def ensureAuthenticated (authed : Bool) : Option Response :=
  if authed then none
  else some ⟨401, .obj [("message", .str "Unauthorized")]⟩

/-- Modelled from the spec: the application-level Express error middleware
(it lives in server/index.ts, which is not under src/; `asyncHandler` only
forwards uncaught failures to it with `next(error)`).  Per the spec,
failures reaching the route boundary are surfaced as a JSON error body with
a generic message plus the underlying error text. -/
def globalErrorHandler (e : String) : Response :=
  ⟨500, .obj [("message", .str "Internal Server Error"), ("error", .str e)]⟩

/-- The final state of a dispatched request. -/
structure RunResult where
  response : Response
  db : Db
  session : Option (List Message)
  calls : List Call

/-- The registration shape shared by every route:
`app.method(path, ensureAuthenticated, asyncHandler(handler))`.  An
unauthenticated request is answered 401 before the handler runs; an
uncaught handler failure goes through `next(error)` to the error
middleware. -/
def runGuarded (authed : Bool) (req : RequestData) (db : Db)
    (h : Unit → HandlerOut) : RunResult :=
  match ensureAuthenticated authed with
  | some resp => ⟨resp, db, req.session, []⟩
  | none =>
    let out := h ()
    match out.res with
    | .ok r => ⟨r, out.db, out.session, out.calls⟩
    | .error e => ⟨globalErrorHandler e, out.db, out.session, out.calls⟩

/-- The registration shape of the two file routes:
`app.post(path, ensureAuthenticated, upload.single('file'), asyncHandler(h))`.
Authentication is checked first; a multer rejection is an error forwarded
to the error middleware; otherwise the handler receives `req.file`. -/
def runGuardedUpload (authed : Bool) (req : RequestData) (db : Db) (o : Oracles)
    (h : Option StoredFile → Unit → HandlerOut) : RunResult :=
  match ensureAuthenticated authed with
  | some resp => ⟨resp, db, req.session, []⟩
  | none =>
    match req.rawFile with
    | none =>
      let out := h none ()
      match out.res with
      | .ok r => ⟨r, out.db, out.session, out.calls⟩
      | .error e => ⟨globalErrorHandler e, out.db, out.session, out.calls⟩
    | some f =>
      match multerProcess o.now o.rand f with
      | .error e => ⟨globalErrorHandler e, db, req.session, [.fs "diskStorage"]⟩
      | .ok stored =>
        let out := h (some stored) ()
        match out.res with
        | .ok r => ⟨r, out.db, out.session, out.calls ++ [.fs "diskStorage"]⟩
        | .error e => ⟨globalErrorHandler e, out.db, out.session, out.calls ++ [.fs "diskStorage"]⟩

/-- One segment of an Express route pattern: a literal or a `:name`
parameter. -/
inductive Seg where
  | lit (s : String)
  | param (s : String)

/-- A registered route: HTTP method, path pattern (pre-split on `/`), and
the full dispatch pipeline. -/
structure RouteSpec where
  method : String
  pattern : List Seg
  run : Bool → RequestData → Db → Oracles → RunResult

def segMatch : Seg → String → Bool
  | .lit s, t => s == t
  | .param _, _ => true

/-- Express path matching over pre-split segments. -/
def patMatch : List Seg → List String → Bool
  | [], [] => true
  | p :: ps, t :: ts => segMatch p t && patMatch ps ts
  | _, _ => false

/-- Express dispatch: the first registered route whose method and pattern
match the request. -/
def findRoute (routes : List RouteSpec) (method : String) (path : List String) :
    Option RouteSpec :=
  routes.find? (fun r => r.method == method && patMatch r.pattern path)

def projectsIndexRoute : RouteSpec :=
  ⟨"GET", [.lit "api", .lit "projects"],
    fun a req db o => runGuarded a req db (fun _ => projectsIndexHandler req db o)⟩

def projectsRecentRoute : RouteSpec :=
  ⟨"GET", [.lit "api", .lit "projects", .lit "recent"],
    fun a req db o => runGuarded a req db (fun _ => projectsRecentHandler req db o)⟩

def projectsShowRoute : RouteSpec :=
  ⟨"GET", [.lit "api", .lit "projects", .param "id"],
    fun a req db o => runGuarded a req db (fun _ => projectsShowHandler req db o)⟩

def projectsCreateRoute : RouteSpec :=
  ⟨"POST", [.lit "api", .lit "projects"],
    fun a req db o => runGuarded a req db (fun _ => projectsCreateHandler req db o)⟩

def deploymentsIndexRoute : RouteSpec :=
  ⟨"GET", [.lit "api", .lit "deployments"],
    fun a req db o => runGuarded a req db (fun _ => deploymentsIndexHandler req db o)⟩

def deploymentsCreateRoute : RouteSpec :=
  ⟨"POST", [.lit "api", .lit "deployments"],
    fun a req db o => runGuarded a req db (fun _ => deploymentsCreateHandler req db o)⟩

def environmentsIndexRoute : RouteSpec :=
  ⟨"GET", [.lit "api", .lit "environments"],
    fun a req db o => runGuarded a req db (fun _ => environmentsIndexHandler req db o)⟩

def environmentsShowRoute : RouteSpec :=
  ⟨"GET", [.lit "api", .lit "environments", .param "id"],
    fun a req db o => runGuarded a req db (fun _ => environmentsShowHandler req db o)⟩

def environmentsUpdateRoute : RouteSpec :=
  ⟨"PATCH", [.lit "api", .lit "environments", .param "id"],
    fun a req db o => runGuarded a req db (fun _ => environmentsUpdateHandler req db o)⟩

def integrationsIndexRoute : RouteSpec :=
  ⟨"GET", [.lit "api", .lit "integrations"],
    fun a req db o => runGuarded a req db (fun _ => integrationsIndexHandler req db o)⟩

def integrationsCreateRoute : RouteSpec :=
  ⟨"POST", [.lit "api", .lit "integrations"],
    fun a req db o => runGuarded a req db (fun _ => integrationsCreateHandler req db o)⟩

def activitiesIndexRoute : RouteSpec :=
  ⟨"GET", [.lit "api", .lit "activities"],
    fun a req db o => runGuarded a req db (fun _ => activitiesIndexHandler req db o)⟩

def approvalsIndexRoute : RouteSpec :=
  ⟨"GET", [.lit "api", .lit "approvals"],
    fun a req db o => runGuarded a req db (fun _ => approvalsIndexHandler req db o)⟩

def approvalsCountRoute : RouteSpec :=
  ⟨"GET", [.lit "api", .lit "approvals", .lit "count"],
    fun a req db o => runGuarded a req db (fun _ => approvalsCountHandler req db o)⟩

def approvalsUpdateRoute : RouteSpec :=
  ⟨"PATCH", [.lit "api", .lit "approvals", .param "id", .lit "status"],
    fun a req db o => runGuarded a req db (fun _ => approvalsUpdateHandler req db o)⟩

def logsIndexRoute : RouteSpec :=
  ⟨"GET", [.lit "api", .lit "logs"],
    fun a req db o => runGuarded a req db (fun _ => logsIndexHandler req db o)⟩

def messagesIndexRoute : RouteSpec :=
  ⟨"GET", [.lit "api", .lit "messages"],
    fun a req db o => runGuarded a req db (fun _ => getMessagesHandler req db o)⟩

def messagesCreateRoute : RouteSpec :=
  ⟨"POST", [.lit "api", .lit "messages"],
    fun a req db o => runGuarded a req db (fun _ => postMessagesHandler req db o)⟩

def messagesResetRoute : RouteSpec :=
  ⟨"POST", [.lit "api", .lit "messages", .lit "reset"],
    fun a req db o => runGuarded a req db (fun _ => resetMessagesHandler req db o)⟩

def aiChatRoute : RouteSpec :=
  ⟨"POST", [.lit "api", .lit "ai", .lit "chat"],
    fun a req db o => runGuarded a req db (fun _ => aiChatHandler req db o)⟩

def aiCodeRoute : RouteSpec :=
  ⟨"POST", [.lit "api", .lit "ai", .lit "code"],
    fun a req db o => runGuarded a req db (fun _ => aiCodeHandler req db o)⟩

def aiAnalyzeRoute : RouteSpec :=
  ⟨"POST", [.lit "api", .lit "ai", .lit "analyze"],
    fun a req db o => runGuarded a req db (fun _ => aiAnalyzeHandler req db o)⟩

def aiDocumentRoute : RouteSpec :=
  ⟨"POST", [.lit "api", .lit "ai", .lit "document"],
    fun a req db o => runGuarded a req db (fun _ => aiDocumentHandler req db o)⟩

def aiRequirementsRoute : RouteSpec :=
  ⟨"POST", [.lit "api", .lit "ai", .lit "requirements"],
    fun a req db o => runGuarded a req db (fun _ => aiRequirementsHandler req db o)⟩

def filesUploadRoute : RouteSpec :=
  ⟨"POST", [.lit "api", .lit "files", .lit "upload"],
    fun a req db o => runGuardedUpload a req db o (fun f _ => filesUploadHandler f req db o)⟩

def filesIndexRoute : RouteSpec :=
  ⟨"GET", [.lit "api", .lit "files"],
    fun a req db o => runGuarded a req db (fun _ => filesIndexHandler req db o)⟩

def filesAnalyzeRoute : RouteSpec :=
  ⟨"POST", [.lit "api", .lit "files", .lit "analyze"],
    fun a req db o => runGuardedUpload a req db o (fun f _ => filesAnalyzeHandler f req db o)⟩

/-- The routes `registerRoutes` registers, in registration order.  The
authentication endpoints added by `setupAuth` (server/auth.ts, outside
src/) are not part of this table; per the spec they serve login/session
management only. -/
def registeredRoutes : List RouteSpec :=
  [projectsIndexRoute, projectsRecentRoute, projectsShowRoute, projectsCreateRoute,
   deploymentsIndexRoute, deploymentsCreateRoute,
   environmentsIndexRoute, environmentsShowRoute, environmentsUpdateRoute,
   integrationsIndexRoute, integrationsCreateRoute,
   activitiesIndexRoute,
   approvalsIndexRoute, approvalsCountRoute, approvalsUpdateRoute,
   logsIndexRoute,
   messagesIndexRoute, messagesCreateRoute, messagesResetRoute,
   aiChatRoute, aiCodeRoute, aiAnalyzeRoute, aiDocumentRoute, aiRequirementsRoute,
   filesUploadRoute, filesIndexRoute, filesAnalyzeRoute]

/-- The request issued by the dashboard approve/reject action
(`Dashboard.handleApproval`, src/unnamed/part_002):
`apiRequest('POST', '/api/approvals/<id>/approve-or-reject')`.  The URL is
given pre-split into its path segments; `toString id` of an integer never
contains a slash. -/
def handleApprovalRequest (id : Int) (approved : Bool) : String × List String :=
  ("POST", ["api", "approvals", toString id, if approved then "approve" else "reject"])

/-! ## Concrete fixtures -/

/-- An empty database. -/
def db0 : Db := ⟨[], 1, [], [], [], [], [], []⟩

/-- An environment with no API key configured. -/
def env0 : OpenAIEnv := ⟨none, none⟩

/-- An environment with an API key configured. -/
def envK : OpenAIEnv := ⟨some "test-key", none⟩

def apiOk : ApiOracle := fun _ => .ok ⟨some "ok"⟩

def parseOk : ParseOracle := fun _ => .ok .null

/-- A healthy world: no database failure, clean file system, fixed clock. -/
def oracle0 : Oracles :=
  { dbErr := none, env := envK, api := apiOk, parse := parseOk,
    fsReaddir := .ok [], fsStat := fun _ => .ok (0, ""), fsRead := .ok "",
    now := 100, now2 := 101, rand := 5,
    nowIso := "2026-01-01T00:00:00.000Z", nowIso2 := "2026-01-01T00:00:01.000Z" }

/-- A world in which every database, AI, parse and file-system operation
fails with the message `e`. -/
def failingOracle (e : String) : Oracles :=
  { dbErr := some e, env := envK, api := fun _ => .error e,
    parse := fun _ => .error e, fsReaddir := .error e,
    fsStat := fun _ => .error e, fsRead := .error e,
    now := 0, now2 := 0, rand := 0, nowIso := "", nowIso2 := "" }

/-- A request that passes every handler's validation. -/
def validReq : RequestData :=
  { userId := some 1, username := "owner", paramId := 1,
    queryLimit := none, queryStatus := none,
    content := some "Hello", statusBody := "approved",
    projectBody := ⟨"Site", "web", none, none⟩,
    deployBody := .obj [("environment", .str "production"), ("status", .str "success")],
    integrationBody := .obj [("name", .str "Slack"), ("type", .str "messaging")],
    envPatch := .obj [("status", .str "active")],
    aiBody := .obj [("messages", .arr [.obj [("role", .str "user"), ("content", .str "hi")]])],
    prompt := some "make code", language := some "javascript",
    code := some "let x = 1", description := some "an app",
    rawFile := some ⟨"main.ts", 100, "text/plain"⟩,
    session := none }

/-! ## C9: the dashboard approve/reject request matches no registered route -/

/-- C9: `Dashboard.handleApproval` issues
`POST /api/approvals/<id>/approve` or `POST /api/approvals/<id>/reject`,
but for every id no registered route matches that request - the only
approval-update route the server registers is
`PATCH /api/approvals/:id/status` - so the dashboard action never reaches
an approval-updating handler. -/
theorem dashboard_approval_request_unroutable (id : Int) (approved : Bool) :
    findRoute registeredRoutes (handleApprovalRequest id approved).1
        (handleApprovalRequest id approved).2 = none
    ∧ findRoute registeredRoutes "PATCH" ["api", "approvals", toString id, "status"]
        = some approvalsUpdateRoute := by
  cases approved <;> exact ⟨rfl, rfl⟩

/-! ## C4: every API route rejects unauthenticated requests untouched -/

/-- C4: every registered `/api/*` route runs `ensureAuthenticated` first:
an unauthenticated request is answered 401 with body
`message: Unauthorized`, the database is untouched, the session is
unchanged, and no persistence, AI-proxy or file-system call is attempted. -/
theorem unauthenticated_request_rejected (r : RouteSpec)
    (hr : r ∈ registeredRoutes) (req : RequestData) (db : Db) (o : Oracles) :
    r.run false req db o =
      ⟨⟨401, .obj [("message", .str "Unauthorized")]⟩, db, req.session, []⟩ := by
  fin_cases hr <;> rfl

/-- Witness for C4 at `GET /api/projects` on concrete inputs. -/
theorem unauthenticated_request_rejected_witness :
    projectsIndexRoute.run false validReq db0 oracle0 =
      ⟨⟨401, .obj [("message", .str "Unauthorized")]⟩, db0, validReq.session, []⟩ :=
  unauthenticated_request_rejected projectsIndexRoute (by simp [registeredRoutes])
    validReq db0 oracle0

/-! ## C5: upload acceptance condition and stored filename -/

/-- Branch characterization of `multerProcess`. -/
theorem multerProcess_eq (now rand : Nat) (f : RawFile) :
    multerProcess now rand f =
      if allowedTypes.contains (toLowerStr (extname f.originalname)) then
        (if f.size ≤ fileSizeLimit then
          .ok ⟨storedFilename now rand f.originalname, f.originalname, f.size,
               "uploads/" ++ storedFilename now rand f.originalname, f.mimetype⟩
        else .error "File too large")
      else .error "Only common file types are allowed" := by
  unfold multerProcess
  cases hext : allowedTypes.contains (toLowerStr (extname f.originalname))
  · simp [hext]
  · by_cases hsize : fileSizeLimit < f.size
    · simp only [hext, Bool.not_true, Bool.false_eq_true, if_false, if_pos hsize, if_true]
      rw [if_neg (by omega)]
    · simp only [hext, Bool.not_true, Bool.false_eq_true, if_false, if_neg hsize, if_true]
      rw [if_pos (by omega)]

/-- C5: multer accepts a file exactly when its size is at most 10 MB and
its lower-cased extension is in the allow-list, rejecting it with an error
otherwise; every accepted file is stored under the randomized name
`<timestamp>-<random>-<originalname>`. -/
theorem upload_acceptance (now rand : Nat) (f : RawFile) :
    ((∃ s, multerProcess now rand f = .ok s) ↔
      (f.size ≤ fileSizeLimit
        ∧ allowedTypes.contains (toLowerStr (extname f.originalname)) = true))
    ∧ (∀ s, multerProcess now rand f = .ok s →
        s.filename = toString now ++ "-" ++ toString rand ++ "-" ++ f.originalname) := by
  rw [multerProcess_eq]
  by_cases hext : allowedTypes.contains (toLowerStr (extname f.originalname)) = true
  · by_cases hsize : f.size ≤ fileSizeLimit
    · simp only [hext, if_true, if_pos hsize]
      constructor
      · exact ⟨fun _ => ⟨hsize, trivial⟩, fun _ => ⟨_, rfl⟩⟩
      · rintro s hs
        rw [← (Except.ok.injEq _ _).mp hs]
        rfl
    · simp only [hext, if_true, if_neg hsize]
      refine ⟨⟨fun h => ?_, fun h => absurd h.1 hsize⟩, fun s hs => by cases hs⟩
      obtain ⟨s, hs⟩ := h
      cases hs
  · simp only [Bool.not_eq_true] at hext
    simp only [hext, Bool.false_eq_true, if_false]
    refine ⟨⟨fun h => ?_, fun h => h.2.elim⟩, fun s hs => by cases hs⟩
    obtain ⟨s, hs⟩ := h
    cases hs

/-- Witness for C5: a 100-byte `main.ts` at timestamp 100 and draw 5 is
accepted and stored as `100-5-main.ts`. -/
theorem upload_acceptance_witness :
    (⟨"100-5-main.ts", "main.ts", 100, "uploads/100-5-main.ts", "text/plain"⟩ :
        StoredFile).filename
      = toString 100 ++ "-" ++ toString 5 ++ "-" ++ "main.ts" :=
  (upload_acceptance 100 5 ⟨"main.ts", 100, "text/plain"⟩).2
    ⟨"100-5-main.ts", "main.ts", 100, "uploads/100-5-main.ts", "text/plain"⟩ (by rfl)

/-! ## C10: the per-user project filter is applied only for truthy ids -/

/-- C10: `getProjects` filters the projects table by `userId` exactly when
the id is a nonzero number - membership in the result is membership in the
table with that `userId` - and returns the whole table when the id is
absent or zero; the `GET /api/projects` handler answers 200 with exactly
`getProjects(req.user?.id)`. -/
theorem projects_per_user_filter (u : Int) (tbl : List Project) (hu : u ≠ 0) :
    getProjects (some u) tbl = tbl.filter (fun p => p.userId == some u)
    ∧ (∀ p, p ∈ getProjects (some u) tbl ↔ p ∈ tbl ∧ p.userId = some u)
    ∧ getProjects none tbl = tbl
    ∧ getProjects (some 0) tbl = tbl
    ∧ (∀ req db o, o.dbErr = none → projectsIndexHandler req db o =
        ⟨.ok ⟨200, .arr ((getProjects req.userId db.projects).map projectToJson)⟩,
          db, req.session, [.db "getProjects" .null]⟩) := by
  refine ⟨by simp [getProjects, jsTruthyNum, hu], ?_, by simp [getProjects, jsTruthyNum],
    by simp [getProjects, jsTruthyNum], ?_⟩
  · intro p
    simp [getProjects, jsTruthyNum, hu, List.mem_filter]
  · intro req db o hdb
    simp [projectsIndexHandler, dbAttempt, hdb]

/-- Witness for C10 at user id 1 over a two-project table. -/
theorem projects_per_user_filter_witness :
    getProjects (some 1) [⟨1, "A", "web", none, none, none, some 1⟩,
                          ⟨2, "B", "web", none, none, none, some 2⟩]
      = [⟨1, "A", "web", none, none, none, some 1⟩] := by
  have h := (projects_per_user_filter 1 [⟨1, "A", "web", none, none, none, some 1⟩,
    ⟨2, "B", "web", none, none, none, some 2⟩] (by decide)).1
  rw [h]
  rfl

/-! ## C3: approval status values -/

/-- The status values the spec names for approvals. -/
def allowedStatus (s : String) : Prop :=
  s = "pending" ∨ s = "approved" ∨ s = "rejected"

def exApprovals : List Approval :=
  [⟨1, "Deploy to production", "Deploy v2", "deployment", "high", "pending", none⟩]

def exApprovalBogus : Approval :=
  ⟨1, "Deploy to production", "Deploy v2", "deployment", "high", "bogus", none⟩

/-- Counterexample to C3: neither the PATCH handler nor
`updateApprovalStatus` validates the status string, so updating approval 1
with the status `bogus` stores an approval whose status is none of
pending/approved/rejected. -/
theorem approval_status_counterexample :
    updateApprovalStatus 1 "bogus" exApprovals = .ok (exApprovalBogus, [exApprovalBogus])
    ∧ ¬ allowedStatus exApprovalBogus.status :=
  ⟨rfl, by simp [allowedStatus, exApprovalBogus]⟩

/-- C3 as amended: `updateApprovalStatus` writes exactly the status string
it is given, so the pending/approved/rejected invariant is preserved only
when the caller supplies one of those three values (which the PATCH route
does not enforce). -/
theorem updateApprovalStatus_writes_given_status (id : Int) (s : String)
    (tbl tbl2 : List Approval) (a : Approval)
    (h : updateApprovalStatus id s tbl = .ok (a, tbl2)) :
    a.status = s
    ∧ (allowedStatus s → (∀ c ∈ tbl, allowedStatus c.status) →
        ∀ b ∈ tbl2, allowedStatus b.status) := by
  unfold updateApprovalStatus at h
  simp only [] at h
  split at h
  · cases h
  · next a0 rest hf =>
    injection h with h2
    obtain ⟨ha, ht⟩ := Prod.mk.injEq .. ▸ h2
    subst ha
    subst ht
    have hmem : a0 ∈ (tbl.map fun c => if c.id == id then { c with status := s } else c).filter
        (fun c => c.id == id) := by
      rw [hf]
      exact List.mem_cons_self _ _
    rw [List.mem_filter] at hmem
    obtain ⟨hmemRows, hid⟩ := hmem
    obtain ⟨c, hc, hceq⟩ := List.mem_map.mp hmemRows
    constructor
    · by_cases hcid : (c.id == id) = true
      · rw [if_pos hcid] at hceq
        rw [← hceq]
      · rw [if_neg hcid] at hceq
        rw [← hceq] at hid
        exact absurd hid hcid
    · intro hs hall b hb
      obtain ⟨c2, hc2, hc2eq⟩ := List.mem_map.mp hb
      by_cases h2 : (c2.id == id) = true
      · rw [if_pos h2] at hc2eq
        rw [← hc2eq]
        exact hs
      · rw [if_neg h2] at hc2eq
        rw [← hc2eq]
        exact hall c2 hc2

def exApprovalOk : Approval :=
  ⟨1, "Deploy to production", "Deploy v2", "deployment", "high", "approved", none⟩

/-- Witness for the amended C3 at a concrete valid update. -/
theorem updateApprovalStatus_writes_given_status_witness :
    exApprovalOk.status = "approved" :=
  (updateApprovalStatus_writes_given_status 1 "approved" exApprovals [exApprovalOk]
    exApprovalOk (by rfl)).1

/-! ## C6: failing without an API key -/

def opts0 : ChatOptions := ⟨[⟨"user", "hi"⟩], none, none, none, none⟩

/-- Counterexample to C6: with no key in the environment, `generateCode`
does not fail with the error `OpenAI API key not configured` - its catch
block re-throws it as `Failed to generate code: OpenAI API key not
configured`. -/
theorem ai_unconfigured_counterexample :
    (generateCode "p" (some "javascript") none env0 apiOk).1
      = .error "Failed to generate code: OpenAI API key not configured"
    ∧ "Failed to generate code: OpenAI API key not configured"
        ≠ "OpenAI API key not configured" :=
  ⟨rfl, by decide⟩

/-- C6 as amended: with no API key, `createChatCompletion` fails with
exactly `OpenAI API key not configured`, the four wrappers fail with their
catch-block prefix followed by that message, and none of the five makes
any external API call. -/
theorem ai_unconfigured_no_external_call (env : OpenAIEnv)
    (h : isConfigured env = false) (api : ApiOracle) (parse : ParseOracle)
    (opts : ChatOptions) (promptArg codeArg languageArg descriptionArg : String)
    (lang extra : Option String) :
    createChatCompletion env opts api = (.error "OpenAI API key not configured", [])
    ∧ generateCode promptArg lang extra env api
        = (.error "Failed to generate code: OpenAI API key not configured", [])
    ∧ analyzeCode codeArg languageArg env api parse
        = (.error "Failed to analyze code: OpenAI API key not configured", [])
    ∧ generateDocumentation codeArg languageArg env api
        = (.error "Failed to generate documentation: OpenAI API key not configured", [])
    ∧ naturalLanguageToRequirements descriptionArg env api parse
        = (.error "Failed to generate requirements: OpenAI API key not configured", []) := by
  have hcc : ∀ o : ChatOptions,
      createChatCompletion env o api = (.error "OpenAI API key not configured", []) := by
    intro o
    unfold createChatCompletion
    rw [h]
    rfl
  refine ⟨hcc opts, ?_, ?_, ?_, ?_⟩
  · unfold generateCode
    simp only [hcc]
    rfl
  · unfold analyzeCode
    simp only [hcc]
    rfl
  · unfold generateDocumentation
    simp only [hcc]
    rfl
  · unfold naturalLanguageToRequirements
    simp only [hcc]
    rfl

/-- Witness for the amended C6 on the empty environment. -/
theorem ai_unconfigured_no_external_call_witness :
    createChatCompletion env0 opts0 apiOk = (.error "OpenAI API key not configured", []) :=
  (ai_unconfigured_no_external_call env0 rfl apiOk parseOk opts0 "p" "c" "js" "d"
    none none).1

/-! ## C7: conversation history is session-only -/

/-- A harmless chat-handler effect: an AI-proxy call, or the
`chat_interaction` activity insert whose metadata is a bare message count -
no database effect ever carries message content. -/
def chatCallOk : Call → Bool
  | .ai _ => true
  | .db op payload =>
    op == "createActivity" &&
    (match payload with
     | .obj [("type", .str t), ("description", .str d),
             ("metadata", .obj [("messageCount", .num _)])] =>
       t == "chat_interaction" && d == "Chat interaction with AI assistant"
     | _ => false)
  | .fs _ => false

theorem all_map_ai_chatCallOk (l : List ChatRequest) :
    (l.map Call.ai).all chatCallOk = true := by
  induction l with
  | nil => rfl
  | cons x xs ih => simp [chatCallOk, ih]

theorem all_append_activity_chatCallOk (l : List ChatRequest) (k : Rat) :
    ((l.map Call.ai) ++ [Call.db "createActivity" (chatActivityJson k)]).all chatCallOk
      = true := by
  rw [List.all_append, all_map_ai_chatCallOk]
  rfl

/-- C7: conversation history lives only in the per-cookie session.
`POST /api/messages/reset` empties the session array and answers 200; a
`GET /api/messages` over the reset session returns the empty array; and no
messages endpoint writes message content to the database - the GET and
reset handlers make no outbound calls at all, and every call of the POST
handler is either the AI-proxy call or the `chat_interaction` activity
insert whose metadata is a bare message count. -/
theorem messages_session_only :
    (∀ (req : RequestData) (db : Db) (o : Oracles), resetMessagesHandler req db o =
        ⟨.ok ⟨200, .obj [("message", .str "Conversation reset successfully")]⟩,
          db, some [], []⟩)
    ∧ (∀ (req : RequestData) (db : Db) (o o2 : Oracles), getMessagesHandler
          { req with session := (resetMessagesHandler req db o).session } db o2 =
        ⟨.ok ⟨200, .arr []⟩, db, some [], []⟩)
    ∧ (∀ (req : RequestData) (db : Db) (o : Oracles),
        (postMessagesHandler req db o).calls.all chatCallOk = true) := by
  refine ⟨fun req db o => rfl, fun req db o o2 => rfl, fun req db o => ?_⟩
  unfold postMessagesHandler
  dsimp only []
  split
  · rfl
  · split <;>
      first
        | exact all_map_ai_chatCallOk _
        | (split <;> exact all_append_activity_chatCallOk _ _)

/-! ## C8 and C1: the chat turn -/

/-- The user message `POST /api/messages` appends. -/
def chatUserMessage (c : String) (now : Nat) (iso : String) : Message :=
  ⟨toString now, .user, c, iso⟩

/-- The single outbound completion request of a chat turn: one system
message followed by the whole accumulated session history (the prior
messages plus the new user message, in order, roles mapped one to one). -/
def chatFwdRequest (history : List Message) (c : String) (now : Nat) (iso : String) :
    ChatRequest :=
  { model := DEFAULT_MODEL
    messages := ChatMsg.mk "system" chatSystemPrompt
      :: (history ++ [chatUserMessage c now iso]).map chatOfMessage
    temperature := some (0.7 : Rat)
    max_tokens := some 1000
    response_format := none }

/-- C8: when the completion call fails, `POST /api/messages` answers 500
with `Error processing message` plus the error text, and the session keeps
the user message appended before the call (no rollback). -/
theorem chat_failure_keeps_user_message (req : RequestData) (db : Db) (o : Oracles)
    (c e : String) (hc : req.content = some c) (hne : c ≠ "")
    (hk : isConfigured o.env = true)
    (hapi : o.api (chatFwdRequest (req.session.getD []) c o.now o.nowIso) = .error e) :
    postMessagesHandler req db o =
      ⟨.ok ⟨500, .obj [("message", .str "Error processing message"),
                       ("error", .str ("OpenAI API error: " ++ e))]⟩,
        db, some ((req.session.getD []) ++ [chatUserMessage c o.now o.nowIso]),
        [.ai (chatFwdRequest (req.session.getD []) c o.now o.nowIso)]⟩ := by
  unfold chatFwdRequest chatUserMessage at hapi
  unfold postMessagesHandler createChatCompletion
  rw [hc]
  have hfalsy : jsFalsyStr (some c) = false := by
    simp [jsFalsyStr, hne]
  rw [hfalsy]
  simp only [Bool.false_eq_true, if_false, Option.getD_some, hk, Bool.not_true,
    jsOrStrD, hapi]
  rfl

/-- Witness for C8 on a concrete failing world. -/
theorem chat_failure_keeps_user_message_witness :
    postMessagesHandler validReq db0
        { oracle0 with api := fun _ => .error "boom" } =
      ⟨.ok ⟨500, .obj [("message", .str "Error processing message"),
                       ("error", .str ("OpenAI API error: " ++ "boom"))]⟩,
        db0, some [chatUserMessage "Hello" 100 "2026-01-01T00:00:00.000Z"],
        [.ai (chatFwdRequest [] "Hello" 100 "2026-01-01T00:00:00.000Z")]⟩ := by
  have h := chat_failure_keeps_user_message validReq db0
    { oracle0 with api := fun _ => .error "boom" } "Hello" "boom"
    (by rfl) (by decide) (by rfl) (by rfl)
  exact h

/-- C1: a successful chat turn appends the user message, forwards exactly
one completion request holding one system message followed by the entire
accumulated history in order with roles preserved, appends the assistant
reply to the session, records the `chat_interaction` activity, and answers
201 with the assistant message. -/
theorem chat_success_round_trip (req : RequestData) (db : Db) (o : Oracles)
    (c : String) (comp : Completion) (hc : req.content = some c) (hne : c ≠ "")
    (hk : isConfigured o.env = true)
    (hapi : o.api (chatFwdRequest (req.session.getD []) c o.now o.nowIso) = .ok comp)
    (hdb : o.dbErr = none) :
    postMessagesHandler req db o =
      ⟨.ok ⟨201, messageToJson
          ⟨toString (o.now2 + 1), .assistant, comp.content.getD "", o.nowIso2⟩⟩,
        (createActivity (chatActivityJson (((req.session.getD []).length + 2 : Nat) : Rat))
          o.nowIso2 db).2,
        some ((req.session.getD []) ++ [chatUserMessage c o.now o.nowIso,
          ⟨toString (o.now2 + 1), .assistant, comp.content.getD "", o.nowIso2⟩]),
        [.ai (chatFwdRequest (req.session.getD []) c o.now o.nowIso),
         .db "createActivity"
           (chatActivityJson (((req.session.getD []).length + 2 : Nat) : Rat))]⟩ := by
  unfold chatFwdRequest chatUserMessage at hapi
  unfold postMessagesHandler createChatCompletion
  rw [hc]
  have hfalsy : jsFalsyStr (some c) = false := by
    simp [jsFalsyStr, hne]
  rw [hfalsy]
  simp only [Bool.false_eq_true, if_false, Option.getD_some, hk, Bool.not_true,
    jsOrStrD, hapi, hdb]
  simp only [chatUserMessage, chatActivityJson, List.length_append, List.length_cons,
    List.length_nil, List.append_assoc, List.cons_append, List.nil_append]
  rfl

/-- Witness for C1 on a concrete healthy world. -/
theorem chat_success_round_trip_witness :
    (postMessagesHandler validReq db0 oracle0).session =
      some [chatUserMessage "Hello" 100 "2026-01-01T00:00:00.000Z",
            ⟨toString 102, .assistant, "ok", "2026-01-01T00:00:01.000Z"⟩] := by
  have h := chat_success_round_trip validReq db0 oracle0 "Hello" ⟨some "ok"⟩
    (by rfl) (by decide) (by rfl) (by rfl) (by rfl)
  rw [h]
  rfl

/-! ## C2: failures are surfaced as a JSON error body on every route -/

/-- A string ending in the underlying error text `e` (the catch blocks may
stack prefixes in front of it). -/
def ErrTail (e t : String) : Prop := ∃ p, t = p ++ e

theorem errTail_self (e : String) : ErrTail e e := ⟨"", rfl⟩

theorem errTail_append (s : String) {e t : String} (h : ErrTail e t) :
    ErrTail e (s ++ t) := by
  obtain ⟨p, rfl⟩ := h
  exact ⟨s ++ p, (String.append_assoc s p e).symm⟩

/-- A response surfacing the failure `e`: status 500 with a JSON body made
of a generic message plus an error field carrying the underlying error
text. -/
def errorSurfaced (e : String) (r : RunResult) : Prop :=
  r.response.status = 500 ∧
  ∃ m t, r.response.body = .obj [("message", .str m), ("error", .str t)] ∧ ErrTail e t

/-- C2: on every registered route, a database, AI-API or file-system
failure is surfaced to the client as a 500 JSON body of a generic message
plus the underlying error text - either through the route's own catch
block or through `asyncHandler` forwarding to the error middleware; the
only routes not covered by the first disjunct are the two that make no
fallible call at all (`GET /api/messages`, `POST /api/messages/reset`). -/
theorem route_failure_surfaced (e : String) (r : RouteSpec)
    (hr : r ∈ registeredRoutes) :
    errorSurfaced e (r.run true validReq db0 (failingOracle e))
    ∨ (r.run true validReq db0 (failingOracle e)).calls = [] := by
  fin_cases hr <;>
    first
      | exact Or.inr rfl
      | exact Or.inl ⟨rfl, _, _, rfl, errTail_self e⟩
      | exact Or.inl ⟨rfl, _, _, rfl, errTail_append _ (errTail_self e)⟩
      | exact Or.inl ⟨rfl, _, _, rfl, errTail_append _ (errTail_append _ (errTail_self e))⟩

/-- Witness for C2 at `POST /api/ai/code` with failure text `boom`. -/
theorem route_failure_surfaced_witness :
    errorSurfaced "boom" (aiCodeRoute.run true validReq db0 (failingOracle "boom"))
    ∨ (aiCodeRoute.run true validReq db0 (failingOracle "boom")).calls = [] :=
  route_failure_surfaced "boom" aiCodeRoute (by simp [registeredRoutes])

end Rashed
